import Mathlib

/-!
Verification of the trip-planner intelligence tools.

Shallow embedding of the Python sources under `src/`:
  - `src/tools/risk_assessment_tools.py`
  - `src/tools/language_barrier_tools.py`
  - `src/tools/crowd_density_tools.py`
  - `src/tools/price_optimization_tools.py`
  - `src/api_app.py`, `src/cli_app.py`

Python strings are modelled by `String` (with character-list operations that
mirror the Python `str` methods used by the code), Python floats by `ℚ`,
and every external effect (web search, HTTP weather lookup, translation API)
by an explicit outcome parameter: `Fetch.ok text` models a call returning
`text`, `Fetch.exc msg` models the call raising an exception with message
`msg`.  Environment variables are modelled as `Option String` (`none` for
absent or empty).
-/

/-! ## String operations mirroring Python `str` methods -/

/-- The 26 ASCII uppercase/lowercase pairs. -/
def upperLowerTable : List (Char × Char) :=
  [('A', 'a'), ('B', 'b'), ('C', 'c'), ('D', 'd'), ('E', 'e'), ('F', 'f'),
   ('G', 'g'), ('H', 'h'), ('I', 'i'), ('J', 'j'), ('K', 'k'), ('L', 'l'),
   ('M', 'm'), ('N', 'n'), ('O', 'o'), ('P', 'p'), ('Q', 'q'), ('R', 'r'),
   ('S', 's'), ('T', 't'), ('U', 'u'), ('V', 'v'), ('W', 'w'), ('X', 'x'),
   ('Y', 'y'), ('Z', 'z')]

/-- ASCII model of Python `str.lower` on a single character. -/
def lowerChar (c : Char) : Char :=
  match upperLowerTable.find? (fun p => p.1 == c) with
  | some p => p.2
  | none => c

/-- Python `s.lower()`. -/
def strLower (s : String) : String := ⟨s.data.map lowerChar⟩

/-- Does the second list occur at the head of the first? -/
def charsStartsWith : List Char → List Char → Bool
  | _, [] => true
  | [], _ :: _ => false
  | a :: as, b :: bs => a == b && charsStartsWith as bs

/-- Does `needle` occur as a contiguous sublist of `hay`? -/
def charsContains (hay needle : List Char) : Bool :=
  match hay with
  | [] => needle.isEmpty
  | _ :: rest => charsStartsWith hay needle || charsContains rest needle

/-- Python `needle in hay` (substring containment). -/
def strContains (hay needle : String) : Bool := charsContains hay.data needle.data

/-- Python `s.split(sep)` for a one-character separator, on character lists. -/
def splitChar (sep : Char) : List Char → List (List Char)
  | [] => [[]]
  | c :: rest =>
    match splitChar sep rest with
    | [] => [[]]
    | h :: t => if c == sep then [] :: h :: t else (c :: h) :: t

/-- Python `s.split(sep)` for a one-character separator. -/
def strSplitChar (sep : Char) (s : String) : List String :=
  (splitChar sep s.data).map (fun cs => ⟨cs⟩)

/-- Python `s.strip()` (ASCII whitespace). -/
def strStrip (s : String) : String :=
  ⟨((s.data.dropWhile Char.isWhitespace).reverse.dropWhile Char.isWhitespace).reverse⟩

/-! ## Outcomes of external calls -/

/-- Outcome of a `SearchTools()._run(query)` web-search call:
either the returned text or a raised exception's message. -/
inductive Fetch where
  | ok (text : String)
  | exc (msg : String)
deriving DecidableEq, Repr

/-- Outcome of the OpenWeatherMap `requests.get` call:
either a raised exception or a response with status code and
`weather[0].id` / `weather[0].description`. -/
inductive WeatherFetch where
  | exc (msg : String)
  | resp (status : Nat) (weatherId : Nat) (descr : String)
deriving DecidableEq, Repr

/-! ## `src/tools/risk_assessment_tools.py` -/

/-- One entry of the `risks` list: a dict
`{"type": ..., "level": ..., "message": ..., "recommendation": ...}`.
The Python key `type` is rendered as the field `rtype`. -/
structure RiskEntry where
  rtype : String
  level : String
  message : String
  recommendation : String
deriving DecidableEq, Repr

/-- `safety_keywords` in `_assess_safety_risk`. -/
def safety_keywords : List String :=
  ["warning", "advisory", "danger", "unsafe", "avoid", "caution"]

/-- `health_keywords` in `_assess_health_risk`. -/
def health_keywords : List String :=
  ["vaccination", "required", "mandatory", "outbreak", "disease", "health warning"]

/-- `covid_keywords` in `_assess_covid_risk`. -/
def covid_keywords : List String :=
  ["covid", "pandemic", "restrictions", "quarantine", "testing", "vaccination"]

/-- `sum(1 for keyword in keywords if keyword.lower() in search_results.lower())`:
the number of keywords of the list that occur (case-insensitively) as a
substring of the search text.  A keyword contributes at most 1 however many
times it occurs. -/
def keywordIndicators (keywords : List String) (searchResults : String) : Nat :=
  keywords.countP (fun keyword => strContains (strLower searchResults) (strLower keyword))

/-- `_assess_safety_risk` as a function of the web-search outcome. -/
def assessSafetyRisk : Fetch → RiskEntry
  | .exc e =>
    ⟨"safety", "medium", "Safety assessment error: " ++ e,
     "Check official travel advisories"⟩
  | .ok searchResults =>
    let riskIndicators := keywordIndicators safety_keywords searchResults
    if riskIndicators > 3 then
      ⟨"safety", "high", "Multiple safety concerns detected in recent reports",
       "Review travel advisories and consider alternative destinations"⟩
    else if riskIndicators > 1 then
      ⟨"safety", "medium", "Some safety concerns detected",
       "Stay informed about local conditions and follow safety guidelines"⟩
    else
      ⟨"safety", "low", "No major safety concerns detected",
       "Standard travel precautions recommended"⟩

/-- `_assess_health_risk` as a function of the web-search outcome. -/
def assessHealthRisk : Fetch → RiskEntry
  | .exc e =>
    ⟨"health", "low", "Health assessment error: " ++ e,
     "Check official health advisories"⟩
  | .ok searchResults =>
    let healthIndicators := keywordIndicators health_keywords searchResults
    if healthIndicators > 2 then
      ⟨"health", "medium", "Health requirements or advisories detected",
       "Check vaccination requirements and health advisories"⟩
    else
      ⟨"health", "low", "No major health concerns detected",
       "Standard health precautions recommended"⟩

/-- `_assess_covid_risk` as a function of the web-search outcome. -/
def assessCovidRisk : Fetch → RiskEntry
  | .exc e =>
    ⟨"covid", "low", "COVID-19 assessment error: " ++ e,
     "Check official COVID-19 travel guidelines"⟩
  | .ok searchResults =>
    let covidIndicators := keywordIndicators covid_keywords searchResults
    if covidIndicators > 2 then
      ⟨"covid", "medium", "COVID-19 related requirements detected",
       "Check current COVID-19 travel requirements and restrictions"⟩
    else
      ⟨"covid", "low", "No major COVID-19 restrictions detected",
       "Standard COVID-19 precautions recommended"⟩

/-- `_assess_weather_risk` as a function of the `OPENWEATHER_API_KEY`
environment variable and the HTTP outcome.  `os.getenv(..., '')` followed by
`if not api_key` is modelled by `Option String` (`none` for absent/empty). -/
def assessWeatherRisk (apiKey : Option String) (fetch : WeatherFetch) : RiskEntry :=
  match apiKey with
  | none =>
    ⟨"weather", "medium", "Weather data unavailable - API key not configured",
     "Check weather forecasts manually before travel"⟩
  | some _ =>
    match fetch with
    | .exc e =>
      ⟨"weather", "medium", "Weather assessment error: " ++ e,
       "Check weather forecasts manually"⟩
    | .resp status weatherId descr =>
      if status = 200 then
        if weatherId < 300 then
          ⟨"weather", "high", "Thunderstorm conditions detected: " ++ descr,
           "Consider postponing travel or prepare for severe weather"⟩
        else if weatherId < 600 then
          ⟨"weather", "low", "Rainy conditions: " ++ descr,
           "Pack rain gear and waterproof items"⟩
        else if weatherId < 700 then
          ⟨"weather", "medium", "Snow conditions: " ++ descr,
           "Check road conditions and pack warm clothing"⟩
        else
          ⟨"weather", "low", "Clear conditions: " ++ descr,
           "Good weather for travel"⟩
      else
        ⟨"weather", "medium", "Weather data unavailable",
         "Check weather forecasts manually"⟩

/-- `risk_weights = {"low": 1, "medium": 2, "high": 3}` with
`risk_weights.get(level, 1)` (unknown levels default to 1). -/
def risk_weights (level : String) : Nat :=
  if level = "low" then 1
  else if level = "medium" then 2
  else if level = "high" then 3
  else 1

/-- `_calculate_overall_risk`: `(total_weight / max_possible) * 100`. -/
def calculateOverallRisk (risks : List RiskEntry) : ℚ :=
  if risks = [] then 0
  else
    let totalWeight : ℚ := (risks.map (fun r => (risk_weights r.level : ℚ))).sum
    let maxPossible : ℚ := (risks.length : ℚ) * 3
    if maxPossible > 0 then totalWeight / maxPossible * 100 else 0

/-- `_get_risk_level`. -/
def getRiskLevel (score : ℚ) : String :=
  if score ≥ 70 then "HIGH"
  else if score ≥ 40 then "MEDIUM"
  else "LOW"

/-- The `risk_data` dict assembled by `RiskAssessmentTools._run`. -/
structure RiskData where
  location : String
  date_range : String
  risks : List RiskEntry
  overall_risk_score : ℚ
  risk_level : String
deriving DecidableEq, Repr

/-- `RiskAssessmentTools._run`, parameterised by the outcomes of the four
external lookups.  Each `_assess_*` helper returns a non-empty dict in every
branch, so each `if risk:` guard in `_run` passes and all four entries are
appended; none of the modelled sub-assessments lets an exception escape, so
the top-level `except` branch of `_run` is unreachable and the run always
returns a well-formed report. -/
def runRiskAssessment (location date_range : String) (weatherKey : Option String)
    (weatherFetch : WeatherFetch) (safetyFetch healthFetch covidFetch : Fetch) : RiskData :=
  let risks := [assessWeatherRisk weatherKey weatherFetch,
                assessSafetyRisk safetyFetch,
                assessHealthRisk healthFetch,
                assessCovidRisk covidFetch]
  let overall := calculateOverallRisk risks
  ⟨location, date_range, risks, overall, getRiskLevel overall⟩

/-! ## `src/tools/language_barrier_tools.py` -/

/-- The dict returned by `_basic_translation` and its helpers (the optional
`detected_source_language` / `error` keys are omitted; no claim concerns them). -/
structure TranslationResult where
  translated_text : String
  confidence : ℚ
  method : String
deriving DecidableEq, Repr

/-- The line loop of `_extract_translation_from_search`: the first line that
mentions `translation`/`translate` (case-insensitively), contains a colon, and
whose text after the first colon strips to something non-empty and different
from the original text, yields that stripped text; otherwise the original text
is returned. -/
def extractFromLines (originalText : String) : List String → String
  | [] => originalText
  | line :: rest =>
    if strContains (strLower line) "translation" || strContains (strLower line) "translate" then
      if strContains line ":" then
        let parts := strSplitChar ':' line
        if parts.length > 1 then
          let potentialTr := strStrip (parts.getD 1 "")
          if potentialTr ≠ originalText ∧ potentialTr.length > 0 then potentialTr
          else extractFromLines originalText rest
        else extractFromLines originalText rest
      else extractFromLines originalText rest
    else extractFromLines originalText rest

/-- `_extract_translation_from_search`. -/
def extractTranslationFromSearch (searchResults originalText : String) : String :=
  extractFromLines originalText (strSplitChar '\n' searchResults)

/-- `_web_search_translation`, parameterised by the outcome of the
`SearchTools` call. -/
def webSearchTranslation (text : String) (searchOutcome : Fetch) : TranslationResult :=
  match searchOutcome with
  | .ok searchResults => ⟨extractTranslationFromSearch searchResults text, 6/10, "web_search"⟩
  | .exc _ => ⟨text, 0, "web_search_failed"⟩

/-- `_google_translate`: `some t` models a 200 response whose payload carries
translated text `t`; `none` models a non-200 status or a raised exception
(both reach the `except` branch and return the failure dict). -/
def googleTranslate (text : String) (apiOutcome : Option String) : TranslationResult :=
  match apiOutcome with
  | some translatedText => ⟨translatedText, 9/10, "google_translate"⟩
  | none => ⟨text, 0, "google_translate_failed"⟩

/-- `_basic_translation`: the `GOOGLE_TRANSLATE_API_KEY` environment variable
selects the Google branch, otherwise the web-search fallback runs. -/
def basicTranslation (text : String) (googleKey : Option String)
    (googleOutcome : Option String) (searchOutcome : Fetch) : TranslationResult :=
  match googleKey with
  | some _ => googleTranslate text googleOutcome
  | none => webSearchTranslation text searchOutcome

/-! ## Calendar arithmetic for `datetime.weekday()` -/

/-- Gregorian leap year. -/
def isLeapYear (y : ℕ) : Bool := (y % 4 == 0 && y % 100 != 0) || y % 400 == 0

/-- Month lengths, January first. -/
def daysInMonths (leap : Bool) : List ℕ :=
  [31, if leap then 29 else 28, 31, 30, 31, 30, 31, 31, 30, 31, 30, 31]

/-- Days from 1970-01-01 to January 1 of year `y` (for `y ≥ 1970`). -/
def daysBeforeYear (y : ℕ) : ℕ :=
  ((List.range (y - 1970)).map (fun i => if isLeapYear (1970 + i) then 366 else 365)).sum

/-- Days from the first of the month to the first of month `m` in year `y`. -/
def daysBeforeMonth (y m : ℕ) : ℕ := ((daysInMonths (isLeapYear y)).take (m - 1)).sum

/-- Python `datetime.weekday()`: Monday = 0 … Sunday = 6.
1970-01-01 was a Thursday, i.e. weekday 3. -/
def pyWeekday (y m d : ℕ) : ℕ := (daysBeforeYear y + daysBeforeMonth y m + (d - 1) + 3) % 7

/-! ## `src/tools/crowd_density_tools.py` -/

/-- One generated time slot: the target date combined with an hour. -/
structure SlotTime where
  year : ℕ
  month : ℕ
  day : ℕ
  hour : ℕ
deriving DecidableEq, Repr

/-- The dict returned by `_get_historical_pattern`. -/
structure HistPattern where
  base_density : ℚ
  time_factor : ℚ
  day_factor : ℚ
  season_factor : ℚ
  confidence : ℚ
deriving DecidableEq, Repr

/-- `_get_historical_pattern`.  The body is pure arithmetic on the datetime, so
its `except` branch is unreachable and is not modelled. -/
def getHistoricalPattern (dt : SlotTime) : HistPattern :=
  let hour := dt.hour
  let dayOfWeek := pyWeekday dt.year dt.month dt.day
  let month := dt.month
  let base_density : ℚ := 60
  let time_factor : ℚ :=
    if (9 ≤ hour ∧ hour ≤ 11) ∨ (14 ≤ hour ∧ hour ≤ 16) ∨ (19 ≤ hour ∧ hour ≤ 21) then 13/10
    else if (6 ≤ hour ∧ hour ≤ 8) ∨ (22 ≤ hour ∧ hour ≤ 23) then 6/10
    else 1
  let day_factor : ℚ := if dayOfWeek < 5 then 8/10 else 14/10
  let season_factor : ℚ :=
    if month = 6 ∨ month = 7 ∨ month = 8 then 12/10
    else if month = 12 ∨ month = 1 ∨ month = 2 then 11/10
    else 1
  ⟨base_density, time_factor, day_factor, season_factor, 8/10⟩

/-- `_get_weather_factor` as a function of the `OPENWEATHER_API_KEY`
environment variable and the HTTP outcome. -/
def getWeatherFactor (apiKey : Option String) (fetch : WeatherFetch) : ℚ :=
  match apiKey with
  | none => 1
  | some _ =>
    match fetch with
    | .exc _ => 1
    | .resp status weatherId _ =>
      if status = 200 then
        if weatherId < 300 then 3/10
        else if weatherId < 600 then 7/10
        else if weatherId < 700 then 5/10
        else 12/10
      else 1

/-- `event_keywords` in `_get_event_factor`. -/
def event_keywords : List String :=
  ["festival", "concert", "event", "celebration", "conference", "exhibition"]

/-- `_get_event_factor` as a function of the web-search outcome. -/
def getEventFactor (searchOutcome : Fetch) : ℚ :=
  match searchOutcome with
  | .exc _ => 1
  | .ok searchResults =>
    let eventCount := keywordIndicators event_keywords searchResults
    if eventCount > 3 then 15/10
    else if eventCount > 1 then 12/10
    else 1

/-- `_get_real_time_factors`. -/
def getRealTimeFactors (weatherKey : Option String) (weatherFetch : WeatherFetch)
    (eventSearch : Fetch) : ℚ × ℚ :=
  (getWeatherFactor weatherKey weatherFetch, getEventFactor eventSearch)

/-- Floor of a rational, via flooring integer division. -/
def ratFloor (q : ℚ) : ℤ := Int.fdiv q.num q.den

/-- Python `round()` (round half to even) on the exact-rational model of
floats. -/
def pyRound (x : ℚ) : ℤ :=
  let f := ratFloor x
  let frac := x - f
  if frac < 1/2 then f
  else if frac > 1/2 then f + 1
  else if f % 2 = 0 then f
  else f + 1

/-- Python `round(x, 1)`. -/
def pyRound1 (x : ℚ) : ℚ := (pyRound (x * 10) : ℚ) / 10

/-- Python `round(x, 2)`. -/
def pyRound2 (x : ℚ) : ℚ := (pyRound (x * 100) : ℚ) / 100

/-- The `factors` sub-dict of a crowd prediction. -/
structure CrowdFactors where
  time_factor : ℚ
  day_factor : ℚ
  season_factor : ℚ
  weather_factor : ℚ
  event_factor : ℚ
deriving DecidableEq, Repr

/-- The dict returned by `_predict_crowd_density`. -/
structure CrowdPrediction where
  density_score : ℚ
  density_level : String
  confidence : ℚ
  factors : CrowdFactors
deriving DecidableEq, Repr

/-- `_categorize_density`. -/
def categorizeDensity (densityScore : ℚ) : String :=
  if densityScore ≥ 80 then "very_high"
  else if densityScore ≥ 60 then "high"
  else if densityScore ≥ 40 then "medium"
  else if densityScore ≥ 20 then "low"
  else "very_low"

/-- `_predict_crowd_density`.  No modelled sub-step raises, so the fallback
`{score: 50, level: medium, confidence: 0.5}` branch is unreachable. -/
def predictCrowdDensity (weatherKey : Option String) (weatherFetch : WeatherFetch)
    (eventSearch : Fetch) (dt : SlotTime) : CrowdPrediction :=
  let historicalPattern := getHistoricalPattern dt
  let realTimeFactors := getRealTimeFactors weatherKey weatherFetch eventSearch
  let base_density := historicalPattern.base_density
  let time_factor := historicalPattern.time_factor
  let day_factor := historicalPattern.day_factor
  let season_factor := historicalPattern.season_factor
  let weather_factor := realTimeFactors.1
  let event_factor := realTimeFactors.2
  let predicted :=
    base_density * time_factor * day_factor * season_factor * weather_factor * event_factor
  let predictedClamped := max 0 (min 100 predicted)
  ⟨pyRound1 predictedClamped, categorizeDensity predictedClamped, historicalPattern.confidence,
   ⟨pyRound2 time_factor, pyRound2 day_factor, pyRound2 season_factor,
    pyRound2 weather_factor, pyRound2 event_factor⟩⟩

/-- `_generate_time_slots`: hourly slots 06:00…22:00 on the target date. -/
def generateTimeSlots (y m d : ℕ) : List SlotTime :=
  (List.range' 6 17).map (fun h => ⟨y, m, d, h⟩)

/-- The `predictions` dict built by `CrowdDensityTools._run`, as an ordered
association list keyed by slot (Python dicts preserve insertion order). -/
def crowdPredictions (weatherKey : Option String) (weatherFetch : WeatherFetch)
    (eventSearch : Fetch) (y m d : ℕ) : List (SlotTime × CrowdPrediction) :=
  (generateTimeSlots y m d).map
    (fun slot => (slot, predictCrowdDensity weatherKey weatherFetch eventSearch slot))

/-- Python `min(items, key=...)`: the first item with minimal key. -/
def minBySc (cur : SlotTime × CrowdPrediction) :
    List (SlotTime × CrowdPrediction) → SlotTime × CrowdPrediction
  | [] => cur
  | x :: rest => minBySc (if x.2.density_score < cur.2.density_score then x else cur) rest

/-- Python `max(items, key=...)`: the first item with maximal key. -/
def maxBySc (cur : SlotTime × CrowdPrediction) :
    List (SlotTime × CrowdPrediction) → SlotTime × CrowdPrediction
  | [] => cur
  | x :: rest => maxBySc (if x.2.density_score > cur.2.density_score then x else cur) rest

/-- Zero-padded two-digit rendering. -/
def pad2 (n : ℕ) : String := if n < 10 then "0" ++ toString n else toString n

/-- `time_slot.isoformat()` for a generated slot (minutes and seconds are
always zero). -/
def slotIso (s : SlotTime) : String :=
  toString s.year ++ "-" ++ pad2 s.month ++ "-" ++ pad2 s.day ++ "T" ++ pad2 s.hour ++ ":00:00"

/-- The `Best time to visit` f-string. -/
def bestTimeMsg (p : SlotTime × CrowdPrediction) : String :=
  "Best time to visit: " ++ slotIso p.1 ++ " (density: " ++ toString p.2.density_score ++ ")"

/-- The `Avoid visiting at` f-string. -/
def avoidTimeMsg (p : SlotTime × CrowdPrediction) : String :=
  "Avoid visiting at: " ++ slotIso p.1 ++ " (density: " ++ toString p.2.density_score ++ ")"

/-- `_generate_crowd_recommendations`.  On an empty dict Python's `min` would
raise; `_run` always passes 17 slots, so the `[]` case is unreachable and is
modelled as `[]`. -/
def generateCrowdRecommendations (predictions : List (SlotTime × CrowdPrediction)) : List String :=
  match predictions with
  | [] => []
  | p :: rest =>
    let bestTime := minBySc p rest
    let worstTime := maxBySc p rest
    let avgDensity := ((p :: rest).map (fun q => q.2.density_score)).sum / ((p :: rest).length : ℚ)
    [bestTimeMsg bestTime, avoidTimeMsg worstTime] ++
      (if avgDensity > 70 then ["High crowd density expected - consider booking tickets in advance"]
       else if avgDensity < 30 then ["Low crowd density expected - great time for a peaceful visit"]
       else [])

/-! ## `src/tools/price_optimization_tools.py` -/

/-- One entry of the `alternatives` list in `_find_alternative_dates`.
Dates are modelled as integer day numbers (`datetime + timedelta(days=k)`
becomes integer addition). -/
structure AlternativeDate where
  date : ℤ
  price_factor : ℚ
  savings_potential : String
deriving DecidableEq, Repr

/-- One iteration of the offset loop body in `_find_alternative_dates`. -/
def alternativeFor (category : String) (targetDate daysOffset : ℤ) : AlternativeDate :=
  let price_factor : ℚ :=
    if category = "flight" then (if daysOffset < 0 then 9/10 else 11/10) else 1
  ⟨targetDate + daysOffset, price_factor,
   if price_factor < 95/100 then "high"
   else if price_factor < 105/100 then "medium"
   else "low"⟩

/-- `_find_alternative_dates`: offsets −7…+7 excluding 0, one alternative per
offset, stably sorted ascending by `price_factor` (Python `list.sort` is
stable, as is `List.insertionSort`), first five returned. -/
def findAlternativeDates (targetDate : ℤ) (category : String) : List AlternativeDate :=
  let offsets := ((List.range 15).map (fun i => (i : ℤ) - 7)).filter (fun o => o ≠ 0)
  let alternatives := offsets.map (fun off => alternativeFor category targetDate off)
  (alternatives.insertionSort (fun a b => a.price_factor ≤ b.price_factor)).take 5

/-- `price_keywords` in `_extract_price_from_search` (note `USD` is uppercase
in the source while every line is lowercased before the membership test). -/
def price_keywords : List String := ["$", "USD", "price", "cost", "rate"]

/-- Match of the regex `\d+(?:,\d{3})*(?:\.\d{2})?` at the head of the list:
the captured numeral and the remainder.  `(?:,\d{3})*` consumes comma groups
of exactly three digits; `(?:\.\d{2})?` consumes a dot followed by exactly two
digits. -/
def commaGroups : List Char → List Char × List Char
  | ',' :: a :: b :: c :: rest =>
    if a.isDigit && b.isDigit && c.isDigit then
      let (more, rest2) := commaGroups rest
      (',' :: a :: b :: c :: more, rest2)
    else ([], ',' :: a :: b :: c :: rest)
  | cs => ([], cs)

/-- The optional `.dd` tail of the price regex. -/
def decimalPart : List Char → List Char × List Char
  | '.' :: a :: b :: rest =>
    if a.isDigit && b.isDigit then (['.', a, b], rest) else ([], '.' :: a :: b :: rest)
  | cs => ([], cs)

/-- Attempt the price regex at the current position. -/
def matchNumAt (cs : List Char) : Option (List Char × List Char) :=
  let ds := cs.takeWhile Char.isDigit
  if ds.isEmpty then none
  else
    let rest1 := cs.drop ds.length
    let (groups, rest2) := commaGroups rest1
    let (decs, rest3) := decimalPart rest2
    some (ds ++ groups ++ decs, rest3)

/-- `re.findall` of the price regex: scan left to right, restarting after each
match (the leading `\$?` never changes the captured group).  Fuel-indexed to
make the recursion structural; each successful match consumes at least one
character, so `cs.length` fuel suffices. -/
def findNumbersAux : ℕ → List Char → List (List Char)
  | 0, _ => []
  | _ + 1, [] => []
  | fuel + 1, c :: rest =>
    match matchNumAt (c :: rest) with
    | some (cap, rest2) => cap :: findNumbersAux fuel rest2
    | none => findNumbersAux fuel rest

/-- All numerals the price regex finds in a line. -/
def findNumbers (cs : List Char) : List (List Char) := findNumbersAux cs.length cs

/-- Digit run to a natural number. -/
def digitsToNat (ds : List Char) : ℕ := ds.foldl (fun acc c => 10 * acc + (c.toNat - 48)) 0

/-- `float(num.replace(',', ''))` for a captured numeral (which holds at most
one dot). -/
def numeralToRat (cs : List Char) : ℚ :=
  let cleaned := cs.filter (fun c => c ≠ ',')
  match splitChar '.' cleaned with
  | [ip] => digitsToNat ip
  | [ip, fp] => (digitsToNat ip : ℚ) + (digitsToNat fp : ℚ) / (10 ^ fp.length : ℚ)
  | _ => 0

/-- The keyword loop of `_extract_price_from_search` for one line: each
keyword with `keyword in line.lower()` appends every regex number of the line
lying in the plausible range `[10, 10000]` (so a line matching several
keywords contributes its numbers several times).  The keyword is **not**
lowercased here — the test is `keyword in line.lower()` verbatim. -/
def linePrices (line : String) : List ℚ :=
  (price_keywords.map (fun keyword =>
    if strContains (strLower line) keyword then
      ((findNumbers line.data).map numeralToRat).filter (fun p => 10 ≤ p ∧ p ≤ 10000)
    else [])).flatten

/-- The full `prices` list accumulated over `search_results.split('\n')`. -/
def allPrices (searchResults : String) : List ℚ :=
  ((strSplitChar '\n' searchResults).map linePrices).flatten

/-- The summary dict built when `prices` is non-empty. -/
structure PriceSummary where
  average : ℚ
  min : ℚ
  max : ℚ
  currency : String
deriving DecidableEq, Repr

/-- `_extract_price_from_search` (its `category` argument is unused by the
source body). -/
def extractPriceFromSearch (searchResults : String) (_category : String) : Option PriceSummary :=
  match allPrices searchResults with
  | [] => none
  | p :: rest =>
    let prices := p :: rest
    some ⟨pyRound2 (prices.sum / (prices.length : ℚ)),
          pyRound2 (rest.foldl min p), pyRound2 (rest.foldl max p), "USD"⟩

/-! ## `src/api_app.py` and `src/cli_app.py` front-end validation -/

/-- A raw `plan-trip` request body: `none` marks a missing JSON field; dates
are integer day numbers. -/
structure RawTripRequest where
  origin : Option String
  destination : Option String
  start_date : Option ℤ
  end_date : Option ℤ
  interests : Option String
deriving DecidableEq, Repr

/-- A validated `TripRequest`. -/
structure TripRequestParsed where
  origin : String
  destination : String
  start_date : ℤ
  end_date : ℤ
  interests : String
deriving DecidableEq, Repr

/-- Pydantic validation of `TripRequest`: every field is declared
`Field(...)`, i.e. required, so a missing field fails request validation
(FastAPI answers 422); no further constraint (no `min_length`) is declared, so
any present value — the empty string included — passes. -/
def parseTripRequest (r : RawTripRequest) : Option TripRequestParsed :=
  match r.origin, r.destination, r.start_date, r.end_date, r.interests with
  | some o, some d, some s, some e, some i => some ⟨o, d, s, e, i⟩
  | _, _, _, _, _ => none

/-- What the `plan_trip` handler does before any planning work. -/
inductive ApiOutcome where
  | httpError (status : ℕ) (detail : String)
  | planned (date_range : String)
deriving DecidableEq, Repr

/-- The `plan_trip` endpoint up to the hand-off to `TripCrew`: `keysOk` models
the `validate_api_keys` dependency (absent credentials raise 500 at request
time), schema validation runs before the handler body, and the handler raises
400 iff `end_date <= start_date`; otherwise it formats `date_range` and
proceeds to planning. -/
def planTrip (keysOk : Bool) (r : RawTripRequest) : ApiOutcome :=
  if !keysOk then .httpError 500 "Missing required API keys"
  else
    match parseTripRequest r with
    | none => .httpError 422 "Field required"
    | some req =>
      if req.end_date ≤ req.start_date then
        .httpError 400 "End date must be after start date"
      else
        .planned (toString req.start_date ++ " to " ++ toString req.end_date)

/-- Outcome of the date check in `cli_app.main` (argparse has already ensured
every flag is present; any string value is accepted). -/
inductive CliOutcome where
  | validationError (msg : String)
  | proceed (date_range : String)
deriving DecidableEq, Repr

/-- The `main` date validation of `cli_app.py`. -/
def cliValidate (start_date end_date : ℤ) : CliOutcome :=
  if end_date ≤ start_date then .validationError "Error: End date must be after start date"
  else .proceed (toString start_date ++ " to " ++ toString end_date)

/-! ## Helper lemmas -/

/-- Explicit value of `_find_alternative_dates` for the flight category: the
seven earlier offsets all carry factor 0.9, the stable sort keeps them in
offset order ahead of the 1.1-factor later offsets, and the first five are the
offsets −7…−3. -/
theorem findAlternativeDates_flight (t : ℤ) :
    findAlternativeDates t "flight" =
      [⟨t - 7, 9/10, "high"⟩, ⟨t - 6, 9/10, "high"⟩, ⟨t - 5, 9/10, "high"⟩,
       ⟨t - 4, 9/10, "high"⟩, ⟨t - 3, 9/10, "high"⟩] := by
  norm_num [findAlternativeDates, alternativeFor, List.insertionSort, List.orderedInsert,
    List.range, List.range.loop]
  omega

/-- Explicit value of `_find_alternative_dates` for every non-flight category:
all fourteen candidates carry the neutral factor 1.0, so the stable sort keeps
the original offset order and the first five are the offsets −7…−3. -/
theorem findAlternativeDates_nonflight (t : ℤ) (category : String) (hc : category ≠ "flight") :
    findAlternativeDates t category =
      [⟨t - 7, 1, "medium"⟩, ⟨t - 6, 1, "medium"⟩, ⟨t - 5, 1, "medium"⟩,
       ⟨t - 4, 1, "medium"⟩, ⟨t - 3, 1, "medium"⟩] := by
  norm_num [findAlternativeDates, alternativeFor, List.insertionSort, List.orderedInsert,
    List.range, List.range.loop, hc]
  omega

/-- `minBySc` (Python `min` with a key) returns an element of `cur :: l` whose
key is a lower bound of every key in `cur :: l`. -/
theorem minBySc_spec (l : List (SlotTime × CrowdPrediction)) :
    ∀ cur : SlotTime × CrowdPrediction,
      (minBySc cur l = cur ∨ minBySc cur l ∈ l) ∧
      (minBySc cur l).2.density_score ≤ cur.2.density_score ∧
      ∀ x ∈ l, (minBySc cur l).2.density_score ≤ x.2.density_score := by
  induction l with
  | nil => intro cur; simp [minBySc]
  | cons x rest ih =>
    intro cur
    rw [minBySc]
    by_cases hx : x.2.density_score < cur.2.density_score
    · rw [if_pos hx]
      obtain ⟨hmem, hle, hall⟩ := ih x
      refine ⟨?_, le_trans hle (le_of_lt hx), ?_⟩
      · rcases hmem with h | h
        · exact Or.inr (by rw [h]; exact List.mem_cons_self x rest)
        · exact Or.inr (List.mem_cons_of_mem x h)
      · intro y hy
        rcases List.mem_cons.mp hy with rfl | hy'
        · exact hle
        · exact hall y hy'
    · rw [if_neg hx]
      obtain ⟨hmem, hle, hall⟩ := ih cur
      refine ⟨?_, hle, ?_⟩
      · rcases hmem with h | h
        · exact Or.inl h
        · exact Or.inr (List.mem_cons_of_mem x h)
      · intro y hy
        rcases List.mem_cons.mp hy with rfl | hy'
        · exact le_trans hle (le_of_not_lt hx)
        · exact hall y hy'

/-- `maxBySc` (Python `max` with a key) returns an element of `cur :: l` whose
key is an upper bound of every key in `cur :: l`. -/
theorem maxBySc_spec (l : List (SlotTime × CrowdPrediction)) :
    ∀ cur : SlotTime × CrowdPrediction,
      (maxBySc cur l = cur ∨ maxBySc cur l ∈ l) ∧
      cur.2.density_score ≤ (maxBySc cur l).2.density_score ∧
      ∀ x ∈ l, x.2.density_score ≤ (maxBySc cur l).2.density_score := by
  induction l with
  | nil => intro cur; simp [maxBySc]
  | cons x rest ih =>
    intro cur
    rw [maxBySc]
    by_cases hx : x.2.density_score > cur.2.density_score
    · rw [if_pos hx]
      obtain ⟨hmem, hle, hall⟩ := ih x
      refine ⟨?_, le_trans (le_of_lt hx) hle, ?_⟩
      · rcases hmem with h | h
        · exact Or.inr (by rw [h]; exact List.mem_cons_self x rest)
        · exact Or.inr (List.mem_cons_of_mem x h)
      · intro y hy
        rcases List.mem_cons.mp hy with rfl | hy'
        · exact hle
        · exact hall y hy'
    · rw [if_neg hx]
      obtain ⟨hmem, hle, hall⟩ := ih cur
      refine ⟨?_, hle, ?_⟩
      · rcases hmem with h | h
        · exact Or.inl h
        · exact Or.inr (List.mem_cons_of_mem x h)
      · intro y hy
        rcases List.mem_cons.mp hy with rfl | hy'
        · exact le_trans (le_of_not_lt hx) hle
        · exact hall y hy'

/-- Python `str.lower` never produces an uppercase `U`, so the character `U`
cannot occur in a lowercased string. -/
theorem lowerChar_ne_U (c : Char) : lowerChar c ≠ 'U' := by
  rw [lowerChar]
  cases hf : upperLowerTable.find? (fun p => p.1 == c) with
  | none =>
    intro h
    subst h
    have := List.find?_eq_none.mp hf ('U', 'u') (by decide)
    simp at this
  | some p =>
    have hmem := List.mem_of_find?_eq_some hf
    fin_cases hmem <;> simp

/-- The string `USD` is never a substring of a lowercased character list. -/
theorem charsContains_lower_USD (l : List Char) :
    charsContains (l.map lowerChar) ['U', 'S', 'D'] = false := by
  induction l with
  | nil => rfl
  | cons c rest ih =>
    have h1 : (lowerChar c == 'U') = false := by
      rw [beq_eq_false_iff_ne]
      exact lowerChar_ne_U c
    simp [charsContains, charsStartsWith, h1, ih]

/-! ## Claim theorems -/

/-- Claim C1 is false as stated: with no translation credential and a search
text from which no line yields a recognizable translation (here the single
line `no results found`), `_basic_translation` does echo the input verbatim,
but it reports confidence 0.6 (method `web_search`), not 0. -/
theorem basicTranslation_echo_confidence_cx :
    (basicTranslation "hello" none none (.ok "no results found")).translated_text = "hello" ∧
    (basicTranslation "hello" none none (.ok "no results found")).confidence ≠ 0 ∧
    (basicTranslation "hello" none none (.ok "no results found")).confidence = 6/10 ∧
    extractTranslationFromSearch "no results found" "hello" = "hello" := by
  refine ⟨rfl, by norm_num [basicTranslation, webSearchTranslation], rfl, rfl⟩

/-- Claim C1 (amended): with no translation credential, when the web search
succeeds but its text yields no usable extraction, the basic translation
echoes the input text verbatim with confidence 0.6 and method `web_search`;
confidence 0 is reported exactly when the search step itself raises, in which
case the input is also echoed verbatim (method `web_search_failed`). -/
theorem basicTranslation_no_credential_echo (text s : String)
    (h : extractTranslationFromSearch s text = text) :
    (basicTranslation text none none (.ok s)).translated_text = text ∧
    (basicTranslation text none none (.ok s)).confidence = 6/10 ∧
    (basicTranslation text none none (.ok s)).method = "web_search" ∧
    ∀ t e : String, basicTranslation t none none (.exc e) = ⟨t, 0, "web_search_failed"⟩ :=
  ⟨h, rfl, rfl, fun _ _ => rfl⟩

/-- Witness for C1 at a concrete input: the search text `nothing here`
yields no extraction for the input `hola`. -/
theorem basicTranslation_no_credential_echo_witness :
    extractTranslationFromSearch "nothing here" "hola" = "hola" ∧
    (basicTranslation "hola" none none (.ok "nothing here")).confidence = 6/10 :=
  ⟨by decide, (basicTranslation_no_credential_echo "hola" "nothing here" (by decide)).2.1⟩

/-- Claim C2 is false as stated: the risk counters count how many distinct
keywords of the fixed set occur in the text, not occurrences — the text
`warning warning warning warning` (one keyword repeated four times) yields
count 1, not 4, and is classified `low`, not `high`. -/
theorem keywordIndicators_repeated_keyword_cx :
    keywordIndicators safety_keywords "warning warning warning warning" = 1 ∧
    keywordIndicators safety_keywords "warning warning warning warning" ≠ 4 ∧
    (assessSafetyRisk (.ok "warning warning warning warning")).level = "low" := by
  refine ⟨by decide, by decide, by decide⟩

/-- Claim C2 (amended): for every search text, the safety, health and epidemic
sub-assessments count the number of distinct keywords of their fixed sets that
occur case-insensitively as substrings of the text (a repeated keyword counts
once), and map that count to a level by the thresholds: safety count > 3 gives
high, > 1 gives medium, else low; health and epidemic count > 2 gives medium,
else low. -/
theorem assess_levels_distinct_keyword_thresholds (text : String) :
    ((assessSafetyRisk (.ok text)).level = "high" ↔ 3 < keywordIndicators safety_keywords text) ∧
    ((assessSafetyRisk (.ok text)).level = "medium" ↔
      (1 < keywordIndicators safety_keywords text ∧ keywordIndicators safety_keywords text ≤ 3)) ∧
    ((assessSafetyRisk (.ok text)).level = "low" ↔ keywordIndicators safety_keywords text ≤ 1) ∧
    ((assessHealthRisk (.ok text)).level = "medium" ↔ 2 < keywordIndicators health_keywords text) ∧
    ((assessHealthRisk (.ok text)).level = "low" ↔ keywordIndicators health_keywords text ≤ 2) ∧
    ((assessCovidRisk (.ok text)).level = "medium" ↔ 2 < keywordIndicators covid_keywords text) ∧
    ((assessCovidRisk (.ok text)).level = "low" ↔ keywordIndicators covid_keywords text ≤ 2) := by
  refine ⟨?_, ?_, ?_, ?_, ?_, ?_, ?_⟩ <;>
    simp only [assessSafetyRisk, assessHealthRisk, assessCovidRisk] <;>
    split_ifs with h1 h2 <;> simp_all <;> omega

/-- Claim C3: for every non-empty risk list, the overall score equals the
weight sum (low=1, medium=2, high=3) times 100 divided by 3 times the number
of categories; raising one category's level low→medium or medium→high while
holding the others fixed never decreases the score; and the overall level is
exactly LOW for score < 40, MEDIUM for 40 ≤ score < 70, HIGH for 70 ≤ score. -/
theorem overallRisk_formula_monotone_thresholds (pre post : List RiskEntry) (e1 e2 : RiskEntry)
    (hstep : (e1.level = "low" ∧ e2.level = "medium") ∨
             (e1.level = "medium" ∧ e2.level = "high")) :
    calculateOverallRisk (pre ++ e1 :: post) =
      ((pre ++ e1 :: post).map (fun r => (risk_weights r.level : ℚ))).sum * 100
        / (3 * ((pre ++ e1 :: post).length : ℚ)) ∧
    calculateOverallRisk (pre ++ e1 :: post) ≤ calculateOverallRisk (pre ++ e2 :: post) ∧
    (∀ s : ℚ, (getRiskLevel s = "LOW" ↔ s < 40) ∧
      (getRiskLevel s = "MEDIUM" ↔ 40 ≤ s ∧ s < 70) ∧
      (getRiskLevel s = "HIGH" ↔ 70 ≤ s)) := by
  have hne : pre ++ e1 :: post ≠ [] := by simp
  have hne2 : pre ++ e2 :: post ≠ [] := by simp
  have hlen : ((pre ++ e1 :: post).length : ℚ) = ((pre ++ e2 :: post).length : ℚ) := by simp
  have hpos : (0 : ℚ) < ((pre ++ e1 :: post).length : ℚ) * 3 := by
    have : 0 < (pre ++ e1 :: post).length := by simp
    positivity
  refine ⟨?_, ?_, ?_⟩
  · rw [calculateOverallRisk, if_neg hne, if_pos hpos, div_mul_eq_mul_div,
      mul_comm ((pre ++ e1 :: post).length : ℚ) 3]
  · rw [calculateOverallRisk, calculateOverallRisk, if_neg hne, if_neg hne2,
      if_pos hpos, if_pos (hlen ▸ hpos)]
    have hw : (risk_weights e1.level : ℚ) ≤ (risk_weights e2.level : ℚ) := by
      rcases hstep with ⟨h1, h2⟩ | ⟨h1, h2⟩ <;> rw [h1, h2] <;> decide
    have hsum : ((pre ++ e1 :: post).map (fun r => (risk_weights r.level : ℚ))).sum ≤
        ((pre ++ e2 :: post).map (fun r => (risk_weights r.level : ℚ))).sum := by
      simp only [List.map_append, List.map_cons, List.sum_append, List.sum_cons]
      gcongr
    rw [hlen]
    gcongr
  · intro s
    rw [getRiskLevel]
    split_ifs with h1 h2
    · refine ⟨⟨fun h => absurd h (by decide), fun h => by linarith⟩,
        ⟨fun h => absurd h (by decide), fun h => by linarith [h.2]⟩,
        ⟨fun _ => h1, fun _ => rfl⟩⟩
    · refine ⟨⟨fun h => absurd h (by decide), fun h => by linarith⟩,
        ⟨fun _ => ⟨h2, by linarith⟩, fun _ => rfl⟩,
        ⟨fun h => absurd h (by decide), fun h => absurd h h1⟩⟩
    · push_neg at h1 h2
      refine ⟨⟨fun _ => by linarith, fun _ => rfl⟩,
        ⟨fun h => absurd h (by decide), fun h => by linarith [h.1]⟩,
        ⟨fun h => absurd h (by decide), fun h => by linarith⟩⟩

/-- Witness for C3 at a concrete input: raising the single entry from low to
medium does not decrease the overall score. -/
theorem overallRisk_formula_monotone_thresholds_witness :
    calculateOverallRisk [⟨"safety", "low", "m", "r"⟩] ≤
      calculateOverallRisk [⟨"safety", "medium", "m", "r"⟩] :=
  (overallRisk_formula_monotone_thresholds [] [] ⟨"safety", "low", "m", "r"⟩
    ⟨"safety", "medium", "m", "r"⟩ (Or.inl ⟨rfl, rfl⟩)).2.1

/-- Claim C4: when all four sub-assessments fail internally (each external
lookup raises), the risk run returns a report — it does not raise — whose
risks list has exactly 4 explanatory stub entries (levels medium, medium, low,
low), whose overall score is 50, and whose overall level is MEDIUM or lower. -/
theorem riskAssessment_all_lookups_failing (loc dr k we se he ce : String) :
    (runRiskAssessment loc dr (some k) (.exc we) (.exc se) (.exc he) (.exc ce)).risks.length
      = 4 ∧
    (runRiskAssessment loc dr (some k) (.exc we) (.exc se) (.exc he) (.exc ce)).risks.map
      RiskEntry.level = ["medium", "medium", "low", "low"] ∧
    (runRiskAssessment loc dr (some k) (.exc we) (.exc se) (.exc he) (.exc ce)).overall_risk_score
      = 50 ∧
    ((runRiskAssessment loc dr (some k) (.exc we) (.exc se) (.exc he) (.exc ce)).risk_level
        = "MEDIUM" ∨
     (runRiskAssessment loc dr (some k) (.exc we) (.exc se) (.exc he) (.exc ce)).risk_level
        = "LOW") := by
  have hscore : calculateOverallRisk
      [assessWeatherRisk (some k) (.exc we), assessSafetyRisk (.exc se),
       assessHealthRisk (.exc he), assessCovidRisk (.exc ce)] = 50 := by
    simp [assessWeatherRisk, assessSafetyRisk, assessHealthRisk, assessCovidRisk,
      calculateOverallRisk, risk_weights]
    norm_num
  refine ⟨rfl, rfl, hscore, Or.inl ?_⟩
  show getRiskLevel (calculateOverallRisk
    [assessWeatherRisk (some k) (.exc we), assessSafetyRisk (.exc se),
     assessHealthRisk (.exc he), assessCovidRisk (.exc ce)]) = "MEDIUM"
  rw [hscore]
  norm_num [getRiskLevel]

/-- Claim C5: for the datetime 2025-07-15T12:00:00 (a July weekday — weekday
index 1) with no weather credential (weather factor 1.0) and a search text
with no event keyword match (event factor 1.0), the 12:00 slot prediction has
time factor 1.0, day factor 0.8, season factor 1.2, density score
60 × 1.0 × 0.8 × 1.2 × 1.0 × 1.0 = 57.6, and level `medium`. -/
theorem crowdDensity_noon_july_weekday (wf : WeatherFetch) (t : String)
    (h : keywordIndicators event_keywords t = 0) :
    (getHistoricalPattern ⟨2025, 7, 15, 12⟩).time_factor = 1 ∧
    (getHistoricalPattern ⟨2025, 7, 15, 12⟩).day_factor = 8/10 ∧
    (getHistoricalPattern ⟨2025, 7, 15, 12⟩).season_factor = 12/10 ∧
    getWeatherFactor none wf = 1 ∧
    getEventFactor (.ok t) = 1 ∧
    (predictCrowdDensity none wf (.ok t) ⟨2025, 7, 15, 12⟩).density_score = 576/10 ∧
    (predictCrowdDensity none wf (.ok t) ⟨2025, 7, 15, 12⟩).density_level = "medium" := by
  have hwd : pyWeekday 2025 7 15 = 1 := by decide
  have hp : getHistoricalPattern ⟨2025, 7, 15, 12⟩ = ⟨60, 1, 8/10, 12/10, 8/10⟩ := by
    norm_num [getHistoricalPattern, hwd]
  have hev : getEventFactor (.ok t) = 1 := by simp [getEventFactor, h]
  have hwf : getWeatherFactor none wf = 1 := rfl
  refine ⟨by rw [hp], by rw [hp], by rw [hp], hwf, hev, ?_, ?_⟩
  · norm_num [predictCrowdDensity, getRealTimeFactors, hp, hev, hwf,
      pyRound1, pyRound, ratFloor, min_def, max_def]
  · norm_num [predictCrowdDensity, getRealTimeFactors, hp, hev, hwf,
      categorizeDensity, min_def, max_def]

/-- Witness for C5 at a concrete input: the empty search text matches no event
keyword. -/
theorem crowdDensity_noon_july_weekday_witness :
    keywordIndicators event_keywords "" = 0 ∧
    (predictCrowdDensity none (.exc "e") (.ok "") ⟨2025, 7, 15, 12⟩).density_score = 576/10 :=
  ⟨by decide, (crowdDensity_noon_july_weekday (.exc "e") "" (by decide)).2.2.2.2.2.1⟩

/-- Claim C6: for every target date and category the alternative-date list is
sorted ascending by price factor and has length at most 5; for the flight
category every alternative earlier than the target date has factor 0.9 and
every later one has factor 1.1; and every alternative's savings potential is
high for factor < 0.95, medium for factor < 1.05, and low otherwise. -/
theorem alternativeDates_sorted_flight_factors (t : ℤ) (category : String) :
    List.Sorted (fun a b : AlternativeDate => a.price_factor ≤ b.price_factor)
      (findAlternativeDates t category) ∧
    (findAlternativeDates t category).length ≤ 5 ∧
    (∀ alt ∈ findAlternativeDates t "flight",
      (alt.date < t → alt.price_factor = 9/10) ∧ (t < alt.date → alt.price_factor = 11/10)) ∧
    (∀ alt ∈ findAlternativeDates t category,
      alt.savings_potential =
        if alt.price_factor < 95/100 then "high"
        else if alt.price_factor < 105/100 then "medium" else "low") := by
  have hfl : ∀ alt ∈ findAlternativeDates t "flight",
      (alt.date < t → alt.price_factor = 9/10) ∧ (t < alt.date → alt.price_factor = 11/10) := by
    rw [findAlternativeDates_flight]
    intro alt halt
    simp only [List.mem_cons, List.not_mem_nil, or_false] at halt
    rcases halt with rfl | rfl | rfl | rfl | rfl <;>
      refine ⟨fun _ => rfl, fun h => ?_⟩ <;> simp only at h <;> omega
  by_cases hc : category = "flight"
  · subst hc
    refine ⟨?_, ?_, hfl, ?_⟩
    · rw [findAlternativeDates_flight]
      simp only [List.sorted_cons, List.mem_cons, List.not_mem_nil, or_false,
        List.mem_singleton, List.sorted_nil]
      norm_num
    · rw [findAlternativeDates_flight]
      simp
    · rw [findAlternativeDates_flight]
      intro alt halt
      simp only [List.mem_cons, List.not_mem_nil, or_false] at halt
      rcases halt with rfl | rfl | rfl | rfl | rfl <;> norm_num
  · refine ⟨?_, ?_, hfl, ?_⟩
    · rw [findAlternativeDates_nonflight t category hc]
      simp only [List.sorted_cons, List.mem_cons, List.not_mem_nil, or_false,
        List.mem_singleton, List.sorted_nil]
      norm_num
    · rw [findAlternativeDates_nonflight t category hc]
      simp
    · rw [findAlternativeDates_nonflight t category hc]
      intro alt halt
      simp only [List.mem_cons, List.not_mem_nil, or_false] at halt
      rcases halt with rfl | rfl | rfl | rfl | rfl <;> norm_num

/-- Witness for C6 at a concrete input: the alternative at date −7 (earlier
than target 0) of the flight list carries factor 0.9. -/
theorem alternativeDates_sorted_flight_factors_witness :
    (⟨(-7 : ℤ), 9/10, "high"⟩ : AlternativeDate).price_factor = 9/10 :=
  ((alternativeDates_sorted_flight_factors 0 "flight").2.2.1 ⟨-7, 9/10, "high"⟩
    (by rw [findAlternativeDates_flight]; norm_num)).1 (by norm_num)

/-- Claim C7: for any environment and date, the crowd run produces one
prediction per hourly slot 06:00…22:00 (17 slots), and the recommendations
name as best time a slot whose density score is minimal over all slots and as
the slot to avoid one whose score is maximal. -/
theorem crowdRecommendations_extreme_slots (weatherKey : Option String) (wf : WeatherFetch)
    (ev : Fetch) (y m d : ℕ) :
    (crowdPredictions weatherKey wf ev y m d).length = 17 ∧
    ∃ best worst : SlotTime × CrowdPrediction,
      best ∈ crowdPredictions weatherKey wf ev y m d ∧
      worst ∈ crowdPredictions weatherKey wf ev y m d ∧
      (∀ x ∈ crowdPredictions weatherKey wf ev y m d,
        best.2.density_score ≤ x.2.density_score ∧ x.2.density_score ≤ worst.2.density_score) ∧
      (generateCrowdRecommendations (crowdPredictions weatherKey wf ev y m d)).take 2 =
        [bestTimeMsg best, avoidTimeMsg worst] := by
  obtain ⟨p, rest, hpr⟩ : ∃ p rest, crowdPredictions weatherKey wf ev y m d = p :: rest :=
    ⟨_, _, rfl⟩
  refine ⟨by simp [crowdPredictions, generateTimeSlots], ?_⟩
  rw [hpr]
  obtain ⟨hminmem, hminle, hminall⟩ := minBySc_spec rest p
  obtain ⟨hmaxmem, hmaxle, hmaxall⟩ := maxBySc_spec rest p
  refine ⟨minBySc p rest, maxBySc p rest, ?_, ?_, ?_, ?_⟩
  · rcases hminmem with h | h
    · rw [h]; exact List.mem_cons_self p rest
    · exact List.mem_cons_of_mem p h
  · rcases hmaxmem with h | h
    · rw [h]; exact List.mem_cons_self p rest
    · exact List.mem_cons_of_mem p h
  · intro x hx
    rcases List.mem_cons.mp hx with rfl | hx'
    · exact ⟨hminle, hmaxle⟩
    · exact ⟨hminall x hx', hmaxall x hx'⟩
  · simp [generateCrowdRecommendations, List.take_succ_cons]

/-- Claim C8 is false as stated: a request whose required `origin` field is
present but empty is not rejected — no validation error is raised and the
endpoint proceeds to planning (pydantic `Field(...)` only checks presence). -/
theorem planTrip_empty_field_accepted_cx :
    planTrip true ⟨some "", some "Krabi, Thailand", some 0, some 5, some "hiking"⟩ =
      .planned "0 to 5" ∧
    (⟨some "", some "Krabi, Thailand", some 0, some 5, some "hiking"⟩ : RawTripRequest).origin =
      some "" :=
  ⟨rfl, rfl⟩

/-- Claim C8 (amended): with credentials configured, the plan-trip endpoint
rejects with HTTP 400 exactly those schema-valid requests with
end_date ≤ start_date and otherwise proceeds to planning; a request missing a
required field is rejected by schema validation (HTTP 422); an empty string in
a required field is not validated against and proceeds.  The CLI likewise
rejects exactly end_date ≤ start_date after parsing. -/
theorem planTrip_validation (r : RawTripRequest) (req : TripRequestParsed)
    (hp : parseTripRequest r = some req) :
    (planTrip true r = .httpError 400 "End date must be after start date" ↔
      req.end_date ≤ req.start_date) ∧
    (¬ req.end_date ≤ req.start_date →
      planTrip true r = .planned (toString req.start_date ++ " to " ++ toString req.end_date)) ∧
    (∀ r' : RawTripRequest, parseTripRequest r' = none →
      planTrip true r' = .httpError 422 "Field required") ∧
    (∀ s e : ℤ,
      cliValidate s e = .validationError "Error: End date must be after start date" ↔ e ≤ s) := by
  refine ⟨?_, ?_, ?_, ?_⟩
  · constructor
    · intro hplan
      by_contra hc
      simp [planTrip, hp, hc] at hplan
    · intro hle
      simp [planTrip, hp, hle]
  · intro hgt
    simp [planTrip, hp, hgt]
  · intro r' hr'
    simp [planTrip, hr']
  · intro s e
    constructor
    · intro hcli
      by_contra hc
      simp [cliValidate, hc] at hcli
    · intro hle
      simp [cliValidate, hle]

/-- Witness for C8 at a concrete input: end day 2 ≤ start day 3 is rejected
with HTTP 400. -/
theorem planTrip_validation_witness :
    planTrip true ⟨some "a", some "b", some 3, some 2, some "c"⟩ =
      .httpError 400 "End date must be after start date" :=
  (planTrip_validation ⟨some "a", some "b", some 3, some 2, some "c"⟩ ⟨"a", "b", 3, 2, "c"⟩
    rfl).1.2 (by decide)

/-- Claim C9: for every target date and category, the five returned
alternatives are exactly the dates at offsets −7, −6, −5, −4, −3 from the
target, in that order — with factor 0.9 (savings high) for flights and the
neutral factor 1.0 (savings medium) for every other category — because all
selected candidates share one factor and the stable ascending sort followed by
taking five keeps the earliest offsets first. -/
theorem alternativeDates_first_five_offsets (t : ℤ) (category : String) :
    (category = "flight" →
      findAlternativeDates t category =
        [⟨t - 7, 9/10, "high"⟩, ⟨t - 6, 9/10, "high"⟩, ⟨t - 5, 9/10, "high"⟩,
         ⟨t - 4, 9/10, "high"⟩, ⟨t - 3, 9/10, "high"⟩]) ∧
    (category ≠ "flight" →
      findAlternativeDates t category =
        [⟨t - 7, 1, "medium"⟩, ⟨t - 6, 1, "medium"⟩, ⟨t - 5, 1, "medium"⟩,
         ⟨t - 4, 1, "medium"⟩, ⟨t - 3, 1, "medium"⟩]) :=
  ⟨fun hc => hc ▸ findAlternativeDates_flight t,
   fun hc => findAlternativeDates_nonflight t category hc⟩

/-- Witness for C9 at concrete inputs: the flight and hotel categories at
target date 0. -/
theorem alternativeDates_first_five_offsets_witness :
    findAlternativeDates 0 "flight" =
      [⟨(0 : ℤ) - 7, 9/10, "high"⟩, ⟨(0 : ℤ) - 6, 9/10, "high"⟩, ⟨(0 : ℤ) - 5, 9/10, "high"⟩,
       ⟨(0 : ℤ) - 4, 9/10, "high"⟩, ⟨(0 : ℤ) - 3, 9/10, "high"⟩] ∧
    findAlternativeDates 0 "hotel" =
      [⟨(0 : ℤ) - 7, 1, "medium"⟩, ⟨(0 : ℤ) - 6, 1, "medium"⟩, ⟨(0 : ℤ) - 5, 1, "medium"⟩,
       ⟨(0 : ℤ) - 4, 1, "medium"⟩, ⟨(0 : ℤ) - 3, 1, "medium"⟩] :=
  ⟨(alternativeDates_first_five_offsets 0 "flight").1 rfl,
   (alternativeDates_first_five_offsets 0 "hotel").2 (by decide)⟩

/-- Claim C10: the currency-marker test lowercases the line but not the
keyword, so the uppercase keyword `USD` never matches any line; consequently a
line containing none of `$`, `price`, `cost`, `rate` case-insensitively —
whatever `USD` markers it holds — contributes no values to the retained price
list. -/
theorem extractPrice_usd_keyword_never_matches (searchResults line : String)
    (_hline : line ∈ strSplitChar '\n' searchResults)
    (h1 : strContains (strLower line) "$" = false)
    (h2 : strContains (strLower line) "price" = false)
    (h3 : strContains (strLower line) "cost" = false)
    (h4 : strContains (strLower line) "rate" = false) :
    (∀ s : String, strContains (strLower s) "USD" = false) ∧
    linePrices line = [] := by
  have husd : ∀ s : String, strContains (strLower s) "USD" = false := fun s =>
    charsContains_lower_USD s.data
  refine ⟨husd, ?_⟩
  simp [linePrices, price_keywords, h1, h2, h3, h4, husd line]

/-- Witness for C10 at a concrete input: the line `500 USD` is its own single
line and contributes no prices. -/
theorem extractPrice_usd_keyword_never_matches_witness :
    linePrices "500 USD" = [] :=
  (extractPrice_usd_keyword_never_matches "500 USD" "500 USD"
    (by decide) (by decide) (by decide) (by decide) (by decide)).2
